import Mathlib

/-!
# ignore_mouse_wayland: click-through monitor and cursor position tracker

A shallow embedding of `src/ignore_mouse_wayland.cc`.

* The X11 display server is an explicit environment: a finite window tree
  (`WTree`), and per poll tick the answers of `XQueryPointer`,
  `XGetWindowAttributes` and `XGetImage` (`Tick`).  Requests sent to the server
  and lines written to stderr are collected, in program order, in a list of
  `Effect`s.
* The two worker threads are explicit control states (`MonitorPC`,
  `PositionPC`); one step of a thread is one atomic transition, and a run of the
  program is a list of `Event`s (boundary calls interleaved with thread steps).
* C `double` is an abstract type `F` with the operations of `DoubleOps`; no
  algebraic law of the addition is assumed, so sums keep the order in which the
  program performs them.
-/

namespace IgnoreMouse

/-! ## Host values (Node-API) -/

/-- Operations on the C type `double` that the program uses: the constant `0.0`,
the addition behind `+=`, and the number-to-`uint32_t` conversion performed by
`napi_get_value_uint32`. -/
class DoubleOps (F : Type) where
  zero : F
  add : F → F → F
  toUint32 : F → Nat

/-- Integer-valued doubles of small magnitude, whose sums are exact. -/
instance instDoubleOpsInt : DoubleOps Int where
  zero := 0
  add := Int.add
  toUint32 := fun z => (z % 4294967296).toNat

/-- A JavaScript value as seen through Node-API: a number, or anything else
(undefined, a string, an object, ...). -/
inductive NapiValue (F : Type) where
  | number (d : F)
  | other
  deriving DecidableEq

/-- Status `napi_ok` of `napi_status`. -/
def napi_ok : Nat := 0

/-- Status `napi_number_expected` of `napi_status`. -/
def napi_number_expected : Nat := 6

/-- The call `napi_get_cb_info(env, info, &argc, args, ...)` with an `args` array of
capacity `cap`: `argc` becomes the number of arguments actually passed, and the
array holds the first `cap` of them, padded with `undefined`. -/
def napi_get_cb_info {F : Type} (cap : Nat) (actual : List (NapiValue F)) :
    Nat × List (NapiValue F) :=
  (actual.length, (actual ++ List.replicate cap NapiValue.other).take cap)

/-- The call `napi_get_value_double(env, v, &result)`: returns the status and the new
content of `result`, which is written only for a number. -/
def napi_get_value_double {F : Type} (v : NapiValue F) (result : F) : Nat × F :=
  match v with
  | .number d => (napi_ok, d)
  | .other => (napi_number_expected, result)

/-- The call `napi_get_value_uint32(env, v, &result)`: returns the status and the new
content of `result`, which is written only for a number. -/
def napi_get_value_uint32 {F : Type} [DoubleOps F] (v : NapiValue F) (result : Nat) :
    Nat × Nat :=
  match v with
  | .number d => (napi_ok, DoubleOps.toUint32 d % 4294967296)
  | .other => (napi_number_expected, result)

/-- Conversion `uint32_t → pid_t` (a 32-bit signed int) of `target_pid = pid`. -/
def toPidT (u : Nat) : Int :=
  if u % 4294967296 < 2147483648 then ((u % 4294967296 : Nat) : Int)
  else ((u % 4294967296 : Nat) : Int) - 4294967296

/-- Conversion `int → short` of the casts `(short)win_rel_x`, `(short)win_rel_y`. -/
def toShort (v : Int) : Int := (v + 32768) % 65536 - 32768

/-! ## The display server -/

/-- A window of the X11 window tree: its id, the value the program reads from its
`_NET_WM_PID` property as a `pid_t` (`none` when `XGetWindowProperty` does not
return `Success` with a non-null `prop`), whether `XQueryTree` succeeds on it, and
its children in the order `XQueryTree` reports them. -/
inductive WTree where
  | node (id : Nat) (pidProp : Option Int) (queryOk : Bool) (children : List WTree)

/-- Window id. -/
def WTree.id : WTree → Nat
  | .node i _ _ _ => i

/-- Value read from the `_NET_WM_PID` property. -/
def WTree.pidProp : WTree → Option Int
  | .node _ p _ _ => p

/-- Whether `XQueryTree` succeeds on the window. -/
def WTree.queryOk : WTree → Bool
  | .node _ _ ok _ => ok

/-- What a fresh `XOpenDisplay(nullptr)` finds: whether the display can be opened,
and the window tree under the root window. -/
structure XServer where
  displayOk : Bool
  root : WTree

/-- The fields of `XWindowAttributes` the program reads. -/
structure XWindowAttributes where
  x : Int
  y : Int
  width : Int
  height : Int
  deriving DecidableEq

/-- An `XRectangle`: `short x, y; unsigned short width, height`. -/
structure XRectangle where
  x : Int
  y : Int
  width : Nat
  height : Nat
  deriving DecidableEq

/-- Observable actions of the program, in program order: Xlib calls and lines
written to stderr.  `XOpenDisplay` is a successful open;
`XShapeCombineRectangles win rect` is the call with
`ShapeInput, 0, 0, &rect, 1, ShapeSet, Unsorted`; `XShapeCombineMask win` is the
call with `ShapeInput, 0, 0, None, ShapeSet`; `stderr msg` is a line printed with
`fprintf(stderr, ...)`, its formatted arguments left out. -/
inductive Effect where
  | XOpenDisplay
  | XCloseDisplay
  | XQueryPointer
  | XGetWindowAttributes (win : Nat)
  | XGetImage (win : Nat) (x y : Int)
  | XShapeCombineRectangles (win : Nat) (rect : XRectangle)
  | XShapeCombineMask (win : Nat)
  | XFlush
  | stderr (msg : String)
  deriving DecidableEq

/-- The answers of the display server during one poll tick of the monitor loop:
`pointer` is `some (root_x, root_y)` when `XQueryPointer` returns True; `attrs` is
the content of the local `attrs` after the unchecked `XGetWindowAttributes` of the
loop body; `samplerAttrs` is the answer to the `XGetWindowAttributes` call inside
`IsPixelTransparent` (`none` when it fails); `image x y` is the pixel value of the
1x1 `XGetImage` at `(x, y)` (`none` when `XGetImage` returns NULL). -/
structure Tick where
  pointer : Option (Int × Int)
  attrs : XWindowAttributes
  samplerAttrs : Option XWindowAttributes
  image : Int → Int → Option Nat

/-! ## Window Resolver -/

mutual
/-- The function `FindWindowByPID(display, root, pid)`; `0` is "not found".  (The
diagnostics it prints are not recorded.) -/
def FindWindowByPID : WTree → Int → Nat
  | .node _ _ ok cs, pid => if ok = false then 0 else FindWindowByPID.scan cs pid
/-- The `for` loop of `FindWindowByPID` over the remaining children. -/
def FindWindowByPID.scan : List WTree → Int → Nat
  | [], _ => 0
  | c :: rest, pid =>
    if c.pidProp = some pid then c.id
    else
      let found := FindWindowByPID c pid
      if found ≠ 0 then found else FindWindowByPID.scan rest pid
end

/-! ## Transparency Sampler -/

/-- The function `IsPixelTransparent(display, win, x, y)`, given the server's answers
to `XGetWindowAttributes` and `XGetImage`; returns the result and the actions
performed. -/
def IsPixelTransparent (attrs : Option XWindowAttributes) (image : Int → Int → Option Nat)
    (win : Nat) (x y : Int) : Bool × List Effect :=
  match attrs with
  | none => (false, [.XGetWindowAttributes win, .stderr "Failed to get window attributes"])
  | some a =>
    if x < 0 ∨ x ≥ a.width ∨ y < 0 ∨ y ≥ a.height then
      (true, [.XGetWindowAttributes win])
    else
      match image x y with
      | none =>
        (false, [.XGetWindowAttributes win, .XGetImage win x y, .stderr "Failed to get image"])
      | some pixel =>
        (decide (pixel = 0), [.XGetWindowAttributes win, .XGetImage win x y])

/-! ## Click-Through State Machine and monitor loop -/

/-- One iteration of the `while (running_monitor)` loop of `MonitorMouse` (the body,
entered with the flag true): returns the new `last_transparent` and the actions
performed. -/
def MonitorMouse.body (win : Nat) (last_transparent : Bool) (t : Tick) : Bool × List Effect :=
  match t.pointer with
  | none => (last_transparent, [.XQueryPointer])
  | some (root_x, root_y) =>
    let win_rel_x := root_x - t.attrs.x
    let win_rel_y := root_y - t.attrs.y
    let r := IsPixelTransparent t.samplerAttrs t.image win win_rel_x win_rel_y
    let is_transparent := r.1
    if is_transparent ≠ last_transparent then
      (is_transparent,
        [.XQueryPointer, .XGetWindowAttributes win] ++ r.2 ++
          [if is_transparent then
              .XShapeCombineRectangles win ⟨toShort win_rel_x, toShort win_rel_y, 1, 1⟩
            else .XShapeCombineMask win,
            .XFlush])
    else
      (last_transparent, [.XQueryPointer, .XGetWindowAttributes win] ++ r.2)

/-- The monitor loop over a finite sequence of poll ticks (the running flag is true
at each of them), from a given `last_transparent`. -/
def MonitorMouse.loop (win : Nat) : Bool → List Tick → Bool × List Effect
  | last_transparent, [] => (last_transparent, [])
  | last_transparent, t :: rest =>
    let r := MonitorMouse.body win last_transparent t
    let q := MonitorMouse.loop win r.1 rest
    (q.1, r.2 ++ q.2)

/-- Control state of a monitor thread: about to run `MonitorMouse` from its first
line, at the head of the `while` loop with its locals `win` and
`last_transparent`, or returned. -/
inductive MonitorPC where
  | entry
  | loop (win : Nat) (last_transparent : Bool)
  | returned
  deriving DecidableEq

/-- The part of `MonitorMouse` before the loop: open the display and resolve the
window of `target_pid`. -/
def MonitorMouse.entry (srv : XServer) (target_pid : Int) : MonitorPC × List Effect :=
  if srv.displayOk = false then
    (.returned, [.stderr "Failed to open X11 display in thread"])
  else
    let win := FindWindowByPID srv.root target_pid
    if win = 0 then
      (.returned, [.XOpenDisplay, .stderr "No window found for PID in thread", .XCloseDisplay])
    else
      (.loop win false, [.XOpenDisplay])

/-- One atomic step of a monitor thread. -/
def MonitorMouse.step (running_monitor : Bool) (target_pid : Int) (srv : XServer) (t : Tick) :
    MonitorPC → MonitorPC × List Effect
  | .entry => MonitorMouse.entry srv target_pid
  | .loop win last_transparent =>
    if running_monitor then
      let r := MonitorMouse.body win last_transparent t
      (.loop win r.1, r.2)
    else (.returned, [.XCloseDisplay])
  | .returned => (.returned, [])

/-- A monitor thread run to its return while `running_monitor` is false (what
`pthread_join` waits for). -/
def MonitorMouse.finish (srv : XServer) (target_pid : Int) : MonitorPC → MonitorPC × List Effect
  | .entry =>
    let r := MonitorMouse.entry srv target_pid
    match r.1 with
    | .loop _ _ => (.returned, r.2 ++ [.XCloseDisplay])
    | _ => (.returned, r.2)
  | .loop _ _ => (.returned, [.XCloseDisplay])
  | .returned => (.returned, [])

/-- The thread function `MonitorMouse` run from its first line to its return, the
running flag being true at the loop head for exactly the iterations `ticks`. -/
def MonitorMouse (srv : XServer) (target_pid : Int) (ticks : List Tick) : List Effect :=
  let e := MonitorMouse.entry srv target_pid
  match e.1 with
  | .loop win last_transparent =>
    e.2 ++ (MonitorMouse.loop win last_transparent ticks).2 ++ [.XCloseDisplay]
  | _ => e.2

/-! ## Position tracker -/

/-- A libinput event: a relative pointer motion with its deltas, or an event of any
other type. -/
inductive LibinputEvent (F : Type) where
  | pointerMotion (dx dy : F)
  | other (type : Nat)

/-- The struct `CursorData` (the mutex is left out; `li` is whether the pointer is
non-null). -/
structure CursorData (F : Type) where
  x : F
  y : F
  li : Bool
  initialized : Bool

/-- The body of the inner `while` of `position_loop` for one event. -/
def position_loop.handle {F : Type} [DoubleOps F] (cd : CursorData F) :
    LibinputEvent F → CursorData F
  | .pointerMotion dx dy => { cd with x := DoubleOps.add cd.x dx, y := DoubleOps.add cd.y dy }
  | .other _ => cd

/-- The inner `while ((event = libinput_get_event(...)) != nullptr)` of
`position_loop`: the pending events are handled in arrival order. -/
def position_loop.drain {F : Type} [DoubleOps F] :
    CursorData F → List (LibinputEvent F) → CursorData F
  | cd, [] => cd
  | cd, e :: rest => position_loop.drain (position_loop.handle cd e) rest

/-- Control state of a position thread. -/
inductive PositionPC where
  | loop
  | returned
  deriving DecidableEq

/-- One iteration of the outer loop of `position_loop`, `pending` being the events
made available by `libinput_dispatch`. -/
def position_loop.step {F : Type} [DoubleOps F] (running_position : Bool)
    (pending : List (LibinputEvent F)) (cd : CursorData F) : PositionPC → PositionPC × CursorData F
  | .loop =>
    if running_position && cd.li then (.loop, position_loop.drain cd pending)
    else (.returned, cd)
  | .returned => (.returned, cd)

/-- What `init_libinput` finds: whether `udev_new`,
`libinput_udev_create_context` and `libinput_udev_assign_seat` succeed. -/
structure InputEnv where
  udevOk : Bool
  contextOk : Bool
  seatOk : Bool

/-- The function `init_libinput()`. -/
def init_libinput {F : Type} (env : InputEnv) (cd : CursorData F) :
    CursorData F × List Effect :=
  if env.udevOk = false then (cd, [.stderr "Failed to create udev context"])
  else if env.contextOk = false then
    ({ cd with li := false }, [.stderr "Failed to create libinput context"])
  else if env.seatOk = false then
    ({ cd with li := false }, [.stderr "Failed to assign seat"])
  else
    ({ cd with li := true, initialized := true },
      [.stderr "Libinput initialized for position tracking"])

/-! ## Process state and boundary calls -/

/-- A monitor thread created by `pthread_create`. -/
structure MonitorThread where
  tid : Nat
  pc : MonitorPC
  deriving DecidableEq

/-- A position thread created by `pthread_create`. -/
structure PositionThread where
  tid : Nat
  pc : PositionPC
  deriving DecidableEq

/-- The static variables of the module, the threads created so far (with the next
fresh `pthread_t` value), and the actions performed so far (oldest first). -/
structure State (F : Type) where
  monitor_thread : Nat
  position_thread : Nat
  running_monitor : Bool
  running_position : Bool
  target_pid : Int
  cursor_data : CursorData F
  monitorThreads : List MonitorThread
  positionThreads : List PositionThread
  nextTid : Nat
  trace : List Effect

/-- The state after static initialisation. -/
def State.init (F : Type) [DoubleOps F] : State F where
  monitor_thread := 0
  position_thread := 0
  running_monitor := false
  running_position := false
  target_pid := 0
  cursor_data := { x := DoubleOps.zero, y := DoubleOps.zero, li := false, initialized := false }
  monitorThreads := []
  positionThreads := []
  nextTid := 1
  trace := []

/-- Apply `f` to the control state of the monitor thread `tid`. -/
def stepMonitorThread (f : MonitorPC → MonitorPC × List Effect) (tid : Nat) :
    List MonitorThread → List MonitorThread × List Effect
  | [] => ([], [])
  | th :: rest =>
    if th.tid = tid then
      let r := f th.pc
      ({ tid := th.tid, pc := r.1 } :: rest, r.2)
    else
      let q := stepMonitorThread f tid rest
      (th :: q.1, q.2)

/-- Apply `f` to the control state of the position thread `tid`. -/
def stepPositionThread {F : Type} (f : PositionPC → PositionPC × CursorData F) (tid : Nat)
    (cd : CursorData F) : List PositionThread → List PositionThread × CursorData F
  | [] => ([], cd)
  | th :: rest =>
    if th.tid = tid then
      let r := f th.pc
      ({ tid := th.tid, pc := r.1 } :: rest, r.2)
    else
      let q := stepPositionThread f tid cd rest
      (th :: q.1, q.2)

/-- The boundary call `StartIgnoreMouseEvents`, with the arguments actually passed;
`uninit` is the indeterminate initial content of the local `uint32_t pid`.
Returns the new state and the error thrown to the caller, if any. -/
def StartIgnoreMouseEvents {F : Type} [DoubleOps F] (actual : List (NapiValue F)) (uninit : Nat)
    (s : State F) : State F × Option String :=
  let cb := napi_get_cb_info 1 actual
  let argc := cb.1
  let args := cb.2
  if argc ≠ 1 then (s, some "Expected 1 argument: pid (number)")
  else
    let pid := (napi_get_value_uint32 (args.getD 0 NapiValue.other) uninit).2
    let s1 := { s with target_pid := toPidT pid }
    if s1.running_monitor = false then
      ({ s1 with
          running_monitor := true
          monitor_thread := s1.nextTid
          monitorThreads := s1.monitorThreads ++ [{ tid := s1.nextTid, pc := .entry }]
          nextTid := s1.nextTid + 1
          trace := s1.trace ++ [.stderr "Started mouse event monitoring for PID"] },
        none)
    else (s1, none)

/-- The boundary call `StopIgnoreMouseEvents`; `srv` is what the display server
answers while the call runs. -/
def StopIgnoreMouseEvents {F : Type} (srv : XServer) (s : State F) : State F :=
  if s.running_monitor then
    let s1 := { s with running_monitor := false }
    let j := stepMonitorThread (MonitorMouse.finish srv s1.target_pid) s1.monitor_thread
      s1.monitorThreads
    let s2 := { s1 with
      monitorThreads := j.1
      trace := s1.trace ++ j.2 ++ [.stderr "Stopped mouse event monitoring"] }
    if srv.displayOk then
      let win := FindWindowByPID srv.root s2.target_pid
      if win ≠ 0 then
        { s2 with
          trace := s2.trace ++ [.XOpenDisplay, .XShapeCombineMask win, .XFlush, .XCloseDisplay] }
      else
        { s2 with trace := s2.trace ++ [.XOpenDisplay, .XCloseDisplay] }
    else s2
  else s

/-- The boundary call `StartTrackingPosition`, with the arguments actually passed.
Returns the new state and the error thrown to the caller, if any.  In C, `!status`
is true exactly when `status` is `napi_ok` (zero), and `||` evaluates its operands
left to right, stopping at the first true one. -/
def StartTrackingPosition {F : Type} (actual : List (NapiValue F)) (env : InputEnv)
    (s : State F) : State F × Option String :=
  let cb := napi_get_cb_info 2 actual
  let argc := cb.1
  let args := cb.2
  let err : String := "Expected 2 arguments: x (number), y (number)"
  if argc ≠ 2 then (s, some err)
  else
    let gx := napi_get_value_double (args.getD 0 NapiValue.other) s.cursor_data.x
    let s1 := { s with cursor_data := { s.cursor_data with x := gx.2 } }
    if gx.1 = 0 then (s1, some err)
    else
      let gy := napi_get_value_double (args.getD 1 NapiValue.other) s1.cursor_data.y
      let s2 := { s1 with cursor_data := { s1.cursor_data with y := gy.2 } }
      if gy.1 = 0 then (s2, some err)
      else
        let s3 :=
          if s2.cursor_data.initialized = false then
            let i := init_libinput env s2.cursor_data
            { s2 with cursor_data := i.1, trace := s2.trace ++ i.2 }
          else s2
        if s3.running_position = false ∧ s3.cursor_data.initialized = true then
          ({ s3 with
              running_position := true
              position_thread := s3.nextTid
              positionThreads := s3.positionThreads ++ [{ tid := s3.nextTid, pc := .loop }]
              nextTid := s3.nextTid + 1
              trace := s3.trace ++ [.stderr "Started position tracking with initial x, y"] },
            none)
        else (s3, none)

/-- The boundary call `GetCursorPosition`: the pair `(x, y)` of the returned object. -/
def GetCursorPosition {F : Type} (s : State F) : F × F :=
  (s.cursor_data.x, s.cursor_data.y)

/-- One step of the process: a boundary call made by the host, or one atomic step
of a worker thread together with what its environment answers. -/
inductive Event (F : Type) where
  | startIgnoreMouseEvents (actual : List (NapiValue F)) (uninit : Nat)
  | stopIgnoreMouseEvents (srv : XServer)
  | startTrackingPosition (actual : List (NapiValue F)) (env : InputEnv)
  | getCursorPosition
  | monitorStep (tid : Nat) (srv : XServer) (t : Tick)
  | positionStep (tid : Nat) (pending : List (LibinputEvent F))

/-- The state after one event. -/
def step {F : Type} [DoubleOps F] (s : State F) : Event F → State F
  | .startIgnoreMouseEvents actual uninit => (StartIgnoreMouseEvents actual uninit s).1
  | .stopIgnoreMouseEvents srv => StopIgnoreMouseEvents srv s
  | .startTrackingPosition actual env => (StartTrackingPosition actual env s).1
  | .getCursorPosition => s
  | .monitorStep tid srv t =>
    let r := stepMonitorThread (MonitorMouse.step s.running_monitor s.target_pid srv t) tid
      s.monitorThreads
    { s with monitorThreads := r.1, trace := s.trace ++ r.2 }
  | .positionStep tid pending =>
    let r := stepPositionThread (position_loop.step s.running_position pending s.cursor_data) tid
      s.cursor_data s.positionThreads
    { s with positionThreads := r.1, cursor_data := r.2 }

/-- The state after a sequence of events. -/
def run {F : Type} [DoubleOps F] (s : State F) (evs : List (Event F)) : State F :=
  evs.foldl step s

/-! ## Observations used by the properties -/

/-- Whether an action is a shape-mask update of the input region. -/
def Effect.isShapeUpdate : Effect → Bool
  | .XShapeCombineRectangles _ _ => true
  | .XShapeCombineMask _ => true
  | _ => false

/-- Number of shape-mask updates among a list of actions. -/
def shapeUpdates (l : List Effect) : Nat := l.countP Effect.isShapeUpdate

/-- The value the loop body compares with `last_transparent` at a tick for window
`win`: `none` when `XQueryPointer` fails (the body compares nothing), else the
result of `IsPixelTransparent` at the pointer's window-relative position, which is
`false` when its geometry read or its pixel read fails. -/
def Tick.sample (win : Nat) (t : Tick) : Option Bool :=
  match t.pointer with
  | none => none
  | some (root_x, root_y) =>
    some (IsPixelTransparent t.samplerAttrs t.image win (root_x - t.attrs.x)
      (root_y - t.attrs.y)).1

/-- The transparency sampled at a successful tick, in the spec's sense of a tick
without a transient failure: `none` when `XQueryPointer` fails, or when the
geometry read or the pixel read of the sampler fails; else the transparency of the
pixel at the pointer's window-relative position (transparent outside the window
bounds). -/
def Tick.successfulSample (t : Tick) : Option Bool :=
  match t.pointer with
  | none => none
  | some (root_x, root_y) =>
    match t.samplerAttrs with
    | none => none
    | some a =>
      if root_x - t.attrs.x < 0 ∨ root_x - t.attrs.x ≥ a.width ∨
          root_y - t.attrs.y < 0 ∨ root_y - t.attrs.y ≥ a.height then
        some true
      else
        match t.image (root_x - t.attrs.x) (root_y - t.attrs.y) with
        | none => none
        | some pixel => some (decide (pixel = 0))

/-- Number of ticks whose sample differs from the sample of the previous tick that
took one, the first being compared against `prev`. -/
def sampleChanges : Bool → List (Option Bool) → Nat
  | _, [] => 0
  | prev, none :: rest => sampleChanges prev rest
  | prev, some b :: rest => (if b ≠ prev then 1 else 0) + sampleChanges b rest

mutual
/-- The windows below a window, in depth-first order: each child, then that child's
own descendants, then the child's later siblings. -/
def descendants : WTree → List WTree
  | .node _ _ _ cs => descendantsList cs
/-- The windows of a list of sibling subtrees, in the same depth-first order. -/
def descendantsList : List WTree → List WTree
  | [] => []
  | c :: rest => c :: (descendants c ++ descendantsList rest)
end

/-- Whether the process-id property of a window equals `pid`. -/
def pidMatches (pid : Int) (w : WTree) : Bool := decide (w.pidProp = some pid)

/-- The id of the first window of a list whose process-id property equals `pid`,
or `0` when there is none. -/
def firstMatch (pid : Int) (l : List WTree) : Nat :=
  match l.find? (pidMatches pid) with
  | some w => w.id
  | none => 0

/-- The motion deltas of a queue of events, in arrival order. -/
def motionDeltas {F : Type} : List (LibinputEvent F) → List (F × F)
  | [] => []
  | .pointerMotion dx dy :: rest => (dx, dy) :: motionDeltas rest
  | .other _ :: rest => motionDeltas rest

/-- The shape-mask updates among a list of actions, in order. -/
def shapeOps (l : List Effect) : List Effect := l.filter Effect.isShapeUpdate

/-- The window a shape-mask update is applied to. -/
def Effect.shapeWindow : Effect → Option Nat
  | .XShapeCombineRectangles win _ => some win
  | .XShapeCombineMask win => some win
  | _ => none

/-- The last shape-mask update applied to window `win` in a list of actions. -/
def lastShapeOn (win : Nat) (l : List Effect) : Option Effect :=
  (l.filter (fun e => decide (e.shapeWindow = some win))).getLast?

/-- Number of monitor threads that have not returned. -/
def liveMonitor {F : Type} (s : State F) : Nat :=
  (s.monitorThreads.filter (fun th => decide (th.pc ≠ MonitorPC.returned))).length

/-- Number of position threads that have not returned. -/
def livePosition {F : Type} (s : State F) : Nat :=
  (s.positionThreads.filter (fun th => decide (th.pc ≠ PositionPC.returned))).length

/-! ## Concrete environments -/

/-- A root window `1` with two top-level windows: `11` of process 100 and `22` of
process 200. -/
def twoWindows : WTree :=
  .node 1 none true [.node 11 (some 100) true [], .node 22 (some 200) true []]

/-- A reachable display showing `twoWindows`. -/
def twoWindowsServer : XServer := { displayOk := true, root := twoWindows }

/-- A tree with a nested match: window `3` (process 7) lies below window `2`, which
precedes window `4` (process 7). -/
def nestedWindows : WTree :=
  .node 1 none true
    [.node 2 (some 5) true [.node 3 (some 7) true []], .node 4 (some 7) true []]

/-- A tick with the pointer at root position `(3, 4)` over a 10x10 window at the
origin whose pixels all read `0` (transparent). -/
def transparentTick : Tick :=
  { pointer := some (3, 4)
    attrs := { x := 0, y := 0, width := 10, height := 10 }
    samplerAttrs := some { x := 0, y := 0, width := 10, height := 10 }
    image := fun _ _ => some 0 }

/-- The same tick over a window whose pixels all read `0xff000000` (opaque). -/
def opaqueTick : Tick :=
  { pointer := some (3, 4)
    attrs := { x := 0, y := 0, width := 10, height := 10 }
    samplerAttrs := some { x := 0, y := 0, width := 10, height := 10 }
    image := fun _ _ => some 4278190080 }

/-- A tick with the pointer at root position `(3, 4)` at which the
`XGetWindowAttributes` call of `IsPixelTransparent` fails. -/
def failedReadTick : Tick :=
  { pointer := some (3, 4)
    attrs := { x := 0, y := 0, width := 10, height := 10 }
    samplerAttrs := none
    image := fun _ _ => some 0 }

/-- A device subsystem on which `init_libinput` succeeds. -/
def inputOk : InputEnv := { udevOk := true, contextOk := true, seatOk := true }

/-- The calls `startIgnoreMouseEvents(100)`, the worker resolving window `11` and
making it pass-through at a transparent pixel, `startIgnoreMouseEvents(200)` while
the worker runs, then `stopIgnoreMouseEvents()`. -/
def retargetThenStop : List (Event Int) :=
  [.startIgnoreMouseEvents [.number 100] 0,
    .monitorStep 1 twoWindowsServer transparentTick,
    .monitorStep 1 twoWindowsServer transparentTick,
    .startIgnoreMouseEvents [.number 200] 0,
    .stopIgnoreMouseEvents twoWindowsServer]

/-- The call `startTrackingPosition(100.0, 50.0)` followed by a pass of the position
thread (were there one) over the motion events `(5, -3)` and `(-2, 1)`. -/
def trackThenMove : List (Event Int) :=
  [.startTrackingPosition [.number 100, .number 50] inputOk,
    .positionStep 1 [.pointerMotion 5 (-3), .pointerMotion (-2) 1]]

/-- The call `startIgnoreMouseEvents(42)` with no window of process 42, followed by
the worker's first step. -/
def startUnresolvable : List (Event Int) :=
  [.startIgnoreMouseEvents [.number 42] 0,
    .monitorStep 1 twoWindowsServer transparentTick]

/-- Thread bookkeeping that holds in every reachable state: thread ids are below the
next fresh id and pairwise distinct; a monitor thread that has not returned is the
one recorded in `monitor_thread`, and the running flag is set; there is at most
one position thread, and none while `running_position` is false. -/
def State.threadsOk {F : Type} (s : State F) : Prop :=
  (∀ th ∈ s.monitorThreads, th.tid < s.nextTid) ∧
    (s.monitorThreads.map MonitorThread.tid).Nodup ∧
    (∀ th ∈ s.monitorThreads, th.pc ≠ MonitorPC.returned →
      th.tid = s.monitor_thread ∧ s.running_monitor = true) ∧
    s.positionThreads.length ≤ 1 ∧
    (s.running_position = false → s.positionThreads = [])

/-- Both workers started: `startIgnoreMouseEvents(100)`, then a
`startTrackingPosition` call that passes the argument test. -/
def bothStarted : List (Event Int) :=
  [.startIgnoreMouseEvents [.number 100] 0,
    .startTrackingPosition [.other, .other] inputOk]


/-! ## Monitor loop: edge-triggered updates -/

theorem shapeUpdates_append (a b : List Effect) :
    shapeUpdates (a ++ b) = shapeUpdates a + shapeUpdates b := by
  simp [shapeUpdates, List.countP_append]

theorem shapeUpdates_IsPixelTransparent (attrs : Option XWindowAttributes)
    (image : Int → Int → Option Nat) (win : Nat) (x y : Int) :
    shapeUpdates (IsPixelTransparent attrs image win x y).2 = 0 := by
  unfold IsPixelTransparent
  cases attrs with
  | none => simp [shapeUpdates, Effect.isShapeUpdate]
  | some a =>
    simp only
    split
    · simp [shapeUpdates, Effect.isShapeUpdate]
    · cases image x y <;> simp [shapeUpdates, Effect.isShapeUpdate]

theorem body_fst (win : Nat) (last : Bool) (t : Tick) :
    (MonitorMouse.body win last t).1 = (t.sample win).getD last := by
  unfold MonitorMouse.body Tick.sample
  cases hp : t.pointer with
  | none => simp
  | some p =>
    obtain ⟨rx, ry⟩ := p
    simp only [Option.getD_some]
    split
    · rfl
    · rename_i h
      simp only [ne_eq, not_not] at h
      exact h.symm

theorem body_updates (win : Nat) (last : Bool) (t : Tick) :
    shapeUpdates (MonitorMouse.body win last t).2 =
      sampleChanges last [t.sample win] := by
  unfold MonitorMouse.body Tick.sample
  cases hp : t.pointer with
  | none => simp [sampleChanges, shapeUpdates, Effect.isShapeUpdate]
  | some p =>
    obtain ⟨rx, ry⟩ := p
    simp only [sampleChanges]
    split
    · rename_i h
      rw [shapeUpdates_append, shapeUpdates_append, shapeUpdates_IsPixelTransparent]
      cases (IsPixelTransparent t.samplerAttrs t.image win (rx - t.attrs.x) (ry - t.attrs.y)).1 <;>
        simp [shapeUpdates, Effect.isShapeUpdate]
    · rename_i h
      rw [shapeUpdates_append, shapeUpdates_IsPixelTransparent]
      simp [shapeUpdates, Effect.isShapeUpdate]

theorem sampleChanges_single_le (last : Bool) (o : Option Bool) :
    sampleChanges last [o] ≤ 1 := by
  cases o with
  | none => simp [sampleChanges]
  | some b => simp only [sampleChanges]; split <;> simp

theorem loop_updates (win : Nat) (ticks : List Tick) :
    ∀ last : Bool, shapeUpdates (MonitorMouse.loop win last ticks).2 =
      sampleChanges last (ticks.map (Tick.sample win)) := by
  induction ticks with
  | nil => intro last; simp [MonitorMouse.loop, sampleChanges, shapeUpdates]
  | cons t rest ih =>
    intro last
    simp only [MonitorMouse.loop, List.map_cons]
    rw [shapeUpdates_append, ih, body_updates, body_fst]
    cases t.sample win with
    | none => simp [sampleChanges]
    | some b => simp [sampleChanges]

theorem loop_append (win : Nat) (a b : List Tick) :
    ∀ last : Bool, MonitorMouse.loop win last (a ++ b) =
      ((MonitorMouse.loop win (MonitorMouse.loop win last a).1 b).1,
        (MonitorMouse.loop win last a).2 ++
          (MonitorMouse.loop win (MonitorMouse.loop win last a).1 b).2) := by
  induction a with
  | nil => intro last; simp [MonitorMouse.loop]
  | cons t rest ih =>
    intro last
    rw [List.cons_append]
    simp only [MonitorMouse.loop]
    rw [ih]
    simp [List.append_assoc]

theorem sampleChanges_same (b : Bool) (l : List (Option Bool)) (h : ∀ o ∈ l, o = some b) :
    sampleChanges b l = 0 := by
  induction l with
  | nil => rfl
  | cons o rest ih =>
    have ho : o = some b := h o (List.mem_cons_self _ _)
    subst ho
    simp only [sampleChanges, ne_eq, not_true_eq_false, if_false, Nat.zero_add]
    exact ih (fun o ho => h o (List.mem_cons_of_mem _ ho))

theorem MonitorMouse_updates (srv : XServer) (target_pid : Int) (win : Nat) (ticks : List Tick)
    (hd : srv.displayOk = true) (hw : FindWindowByPID srv.root target_pid = win)
    (hne : win ≠ 0) :
    shapeUpdates (MonitorMouse srv target_pid ticks) =
      shapeUpdates (MonitorMouse.loop win false ticks).2 := by
  unfold MonitorMouse MonitorMouse.entry
  simp only [hd, hw, hne, Bool.true_eq_false, if_false]
  rw [shapeUpdates_append, shapeUpdates_append]
  simp [shapeUpdates, Effect.isShapeUpdate]

theorem sample_of_successfulSample (win : Nat) (t : Tick) :
    (∀ b : Bool, t.successfulSample = some b → t.sample win = some b) ∧
      (t.pointer ≠ none → t.successfulSample = none → t.sample win = some false) := by
  unfold Tick.successfulSample Tick.sample IsPixelTransparent
  cases hp : t.pointer with
  | none => simp
  | some p =>
    obtain ⟨rx, ry⟩ := p
    cases ha : t.samplerAttrs with
    | none => simp
    | some a =>
      simp only
      split
      · simp
      · cases hi : t.image (rx - t.attrs.x) (ry - t.attrs.y) <;> simp

/-- C1, as the spec states it, fails: over the ticks transparent, failed geometry
read, transparent, the only successful samples are transparent, transparent, which
differ from their predecessor once (the first, against opaque); the loop treats the
failed read as an opaque sample and issues three updates: rectangle, mask reset,
rectangle. -/
theorem MonitorMouse_failed_read_issues_updates :
    [transparentTick, failedReadTick, transparentTick].map Tick.successfulSample =
        [some true, none, some true] ∧
      sampleChanges false
        ([transparentTick, failedReadTick, transparentTick].map Tick.successfulSample) = 1 ∧
      shapeUpdates
        (MonitorMouse.loop 11 false [transparentTick, failedReadTick, transparentTick]).2 = 3 ∧
      shapeUpdates
        (MonitorMouse twoWindowsServer 100 [transparentTick, failedReadTick, transparentTick]) =
        3 ∧
      (MonitorMouse.loop 11 false
          [transparentTick, failedReadTick, transparentTick]).2.filter Effect.isShapeUpdate =
        [Effect.XShapeCombineRectangles 11 { x := 3, y := 4, width := 1, height := 1 },
          Effect.XShapeCombineMask 11,
          Effect.XShapeCombineRectangles 11 { x := 3, y := 4, width := 1, height := 1 }] := by
  refine ⟨by decide, by decide, by decide, by decide, by decide⟩

/-- C1 (amended): over every finite sequence of poll ticks, from
`last_transparent = false`, the monitor loop issues exactly as many shape-mask
updates as there are ticks at which the value returned by `IsPixelTransparent`
differs from the value it returned at the previous tick whose `XQueryPointer`
succeeded (the first being compared against opaque), also counted over the whole
run of `MonitorMouse` on a resolved window; no single tick issues more than one
update; ticks repeating the value of the tick before them issue no update; and the
returned value is the sampled transparency when the reads of the tick succeed, and
opaque when the pointer is read but the geometry read or the pixel read fails. -/
theorem MonitorMouse_updates_edge_triggered (win : Nat) (ticks : List Tick) :
    shapeUpdates (MonitorMouse.loop win false ticks).2 =
        sampleChanges false (ticks.map (Tick.sample win)) ∧
      (∀ (srv : XServer) (target_pid : Int), srv.displayOk = true →
        FindWindowByPID srv.root target_pid = win → win ≠ 0 →
        shapeUpdates (MonitorMouse srv target_pid ticks) =
          sampleChanges false (ticks.map (Tick.sample win))) ∧
      (∀ (last : Bool) (t : Tick), shapeUpdates (MonitorMouse.body win last t).2 ≤ 1) ∧
      (∀ (t : Tick) (b : Bool) (same : List Tick),
        t.sample win = some b → (∀ u ∈ same, u.sample win = some b) →
        shapeUpdates (MonitorMouse.loop win false (ticks ++ t :: same)).2 =
          shapeUpdates (MonitorMouse.loop win false (ticks ++ [t])).2) ∧
      (∀ t : Tick,
        (∀ b : Bool, t.successfulSample = some b → t.sample win = some b) ∧
          (t.pointer ≠ none → t.successfulSample = none → t.sample win = some false)) := by
  refine ⟨loop_updates win ticks false, ?_, ?_, ?_, sample_of_successfulSample win⟩
  · intro srv target_pid hd hw hne
    rw [MonitorMouse_updates srv target_pid win ticks hd hw hne]
    exact loop_updates win ticks false
  · intro last t
    rw [body_updates]
    exact sampleChanges_single_le last _
  · intro t b same ht hsame
    have e : ticks ++ t :: same = (ticks ++ [t]) ++ same := by simp
    rw [e, loop_append win (ticks ++ [t]) same false]
    simp only
    rw [shapeUpdates_append, loop_updates win same]
    have hlast : (MonitorMouse.loop win false (ticks ++ [t])).1 = b := by
      rw [loop_append win ticks [t] false]
      simp only [MonitorMouse.loop]
      rw [body_fst, ht]
      rfl
    rw [hlast, sampleChanges_same b]
    · rfl
    · intro o ho
      obtain ⟨u, hu, rfl⟩ := List.mem_map.mp ho
      exact hsame u hu

/-- Witness for C1 (amended): the worker of process 100 over the ticks transparent, opaque,
opaque, then transparent three times, issues three updates; the two repeats of the
last transparent tick add none. -/
theorem MonitorMouse_updates_edge_triggered_witness :
    shapeUpdates
        (MonitorMouse twoWindowsServer 100 [transparentTick, opaqueTick, opaqueTick]) = 2 ∧
      shapeUpdates (MonitorMouse.loop 11 false
          ([transparentTick, opaqueTick, opaqueTick] ++
            transparentTick :: [transparentTick, transparentTick])).2 =
        shapeUpdates (MonitorMouse.loop 11 false
          ([transparentTick, opaqueTick, opaqueTick] ++ [transparentTick])).2 ∧
      shapeUpdates (MonitorMouse.loop 11 false
          ([transparentTick, opaqueTick, opaqueTick] ++ [transparentTick])).2 = 3 :=
  ⟨((MonitorMouse_updates_edge_triggered 11 [transparentTick, opaqueTick, opaqueTick]).2.1
      twoWindowsServer 100 (by decide) (by decide) (by decide)).trans (by decide),
    (MonitorMouse_updates_edge_triggered 11 [transparentTick, opaqueTick, opaqueTick]).2.2.2.1
      transparentTick true [transparentTick, transparentTick] (by decide) (by decide),
    by decide⟩

/-! ## Transparency Sampler: bounds policy -/

/-- C6: for a window whose geometry is read as width `a.width` and height
`a.height`, and a window-local coordinate outside these bounds,
`IsPixelTransparent` returns true; its only action is the geometry query: no pixel
is read and nothing is reported on stderr. -/
theorem IsPixelTransparent_outside_bounds (a : XWindowAttributes)
    (image : Int → Int → Option Nat) (win : Nat) (x y : Int)
    (h : x < 0 ∨ x ≥ a.width ∨ y < 0 ∨ y ≥ a.height) :
    IsPixelTransparent (some a) image win x y = (true, [Effect.XGetWindowAttributes win]) := by
  unfold IsPixelTransparent
  simp only [if_pos h]

/-- Witness for C6: coordinate `(12, 3)` in a 10x10 window. -/
theorem IsPixelTransparent_outside_bounds_witness :
    ((12 : Int) < 0 ∨ (12 : Int) ≥ 10 ∨ (3 : Int) < 0 ∨ (3 : Int) ≥ 10) ∧
      IsPixelTransparent (some { x := 0, y := 0, width := 10, height := 10 })
        (fun _ _ => some 5) 7 12 3 = (true, [Effect.XGetWindowAttributes 7]) :=
  ⟨by decide,
    IsPixelTransparent_outside_bounds { x := 0, y := 0, width := 10, height := 10 }
      (fun _ _ => some 5) 7 12 3 (by decide)⟩

/-! ## Position integration -/

theorem drain_fold {F : Type} [DoubleOps F] (evs : List (LibinputEvent F)) :
    ∀ cd : CursorData F,
      (position_loop.drain cd evs).x =
          (motionDeltas evs).foldl (fun acc d => DoubleOps.add acc d.1) cd.x ∧
        (position_loop.drain cd evs).y =
          (motionDeltas evs).foldl (fun acc d => DoubleOps.add acc d.2) cd.y ∧
        (position_loop.drain cd evs).li = cd.li ∧
        (position_loop.drain cd evs).initialized = cd.initialized := by
  induction evs with
  | nil => intro cd; simp [position_loop.drain, motionDeltas]
  | cons e rest ih =>
    intro cd
    cases e with
    | pointerMotion dx dy =>
      simp only [position_loop.drain, motionDeltas, List.foldl_cons]
      exact ih (position_loop.handle cd (LibinputEvent.pointerMotion dx dy))
    | other ty =>
      simp only [position_loop.drain, motionDeltas]
      exact ih cd

/-- C8: one pass of the position loop over a finite queue of pending events (running
flag set, device session present) leaves the cursor at the left fold, in arrival
order, of adding each pointer-motion delta to the starting position; an event of
any other type changes nothing; and a motion event updates `x` and `y` together. -/
theorem position_loop_drain_fold {F : Type} [DoubleOps F] (cd : CursorData F)
    (pending : List (LibinputEvent F)) (hli : cd.li = true) :
    ((position_loop.step true pending cd PositionPC.loop).2.x =
        (motionDeltas pending).foldl (fun acc d => DoubleOps.add acc d.1) cd.x ∧
      (position_loop.step true pending cd PositionPC.loop).2.y =
        (motionDeltas pending).foldl (fun acc d => DoubleOps.add acc d.2) cd.y) ∧
      (∀ (c : CursorData F) (ty : Nat), position_loop.handle c (LibinputEvent.other ty) = c) ∧
      (∀ (c : CursorData F) (dx dy : F),
        position_loop.handle c (LibinputEvent.pointerMotion dx dy) =
          { c with x := DoubleOps.add c.x dx, y := DoubleOps.add c.y dy }) := by
  refine ⟨?_, fun _ _ => rfl, fun _ _ _ => rfl⟩
  have h := drain_fold pending cd
  simp only [position_loop.step, hli, Bool.and_self, if_true]
  exact ⟨h.1, h.2.1⟩

/-- Witness for C8: from `(100, 50)`, the queue motion `(5, -3)`, a non-motion event,
motion `(-2, 1)` leaves the cursor at `(103, 48)`. -/
theorem position_loop_drain_fold_witness :
    (position_loop.step true
        [LibinputEvent.pointerMotion 5 (-3), LibinputEvent.other 402,
          LibinputEvent.pointerMotion (-2) 1]
        ({ x := 100, y := 50, li := true, initialized := true } : CursorData Int)
        PositionPC.loop).2.x = 103 ∧
      (position_loop.step true
        [LibinputEvent.pointerMotion 5 (-3), LibinputEvent.other 402,
          LibinputEvent.pointerMotion (-2) 1]
        ({ x := 100, y := 50, li := true, initialized := true } : CursorData Int)
        PositionPC.loop).2.y = 48 :=
  (position_loop_drain_fold
    ({ x := 100, y := 50, li := true, initialized := true } : CursorData Int)
    [LibinputEvent.pointerMotion 5 (-3), LibinputEvent.other 402,
      LibinputEvent.pointerMotion (-2) 1] rfl).1

/-! ## Window Resolver: first match in depth-first order -/

theorem firstMatch_nil (pid : Int) : firstMatch pid [] = 0 := rfl

theorem firstMatch_cons (pid : Int) (w : WTree) (l : List WTree) :
    firstMatch pid (w :: l) = if w.pidProp = some pid then w.id else firstMatch pid l := by
  unfold firstMatch
  by_cases h : w.pidProp = some pid
  · simp [List.find?_cons, pidMatches, h]
  · simp [List.find?_cons, pidMatches, h]

theorem firstMatch_append (pid : Int) (l₁ l₂ : List WTree)
    (hid : ∀ w ∈ l₁, w.id ≠ 0) :
    firstMatch pid (l₁ ++ l₂) =
      if firstMatch pid l₁ ≠ 0 then firstMatch pid l₁ else firstMatch pid l₂ := by
  induction l₁ with
  | nil => simp [firstMatch_nil]
  | cons w l ih =>
    have hw : w.id ≠ 0 := hid w (List.mem_cons_self _ _)
    have hl : ∀ v ∈ l, v.id ≠ 0 := fun v hv => hid v (List.mem_cons_of_mem _ hv)
    rw [List.cons_append, firstMatch_cons, firstMatch_cons]
    by_cases h : w.pidProp = some pid
    · simp [h, hw]
    · simp only [h, if_false]
      exact ih hl

theorem firstMatch_eq_zero_iff (pid : Int) (l : List WTree) (hid : ∀ w ∈ l, w.id ≠ 0) :
    firstMatch pid l = 0 ↔ ∀ w ∈ l, w.pidProp ≠ some pid := by
  induction l with
  | nil => simp [firstMatch_nil]
  | cons w l ih =>
    have hw : w.id ≠ 0 := hid w (List.mem_cons_self _ _)
    have hl : ∀ v ∈ l, v.id ≠ 0 := fun v hv => hid v (List.mem_cons_of_mem _ hv)
    rw [firstMatch_cons]
    by_cases h : w.pidProp = some pid
    · simp [h, hw]
    · simp [h, ih hl]

mutual
theorem FindWindowByPID_eq_firstMatch (pid : Int) :
    ∀ t : WTree, t.queryOk = true → (∀ w ∈ descendants t, w.queryOk = true) →
      (∀ w ∈ descendants t, w.id ≠ 0) →
      FindWindowByPID t pid = firstMatch pid (descendants t)
  | .node i p ok cs, hroot, hq, hid => by
    have hok : ok = true := hroot
    subst hok
    simp only [FindWindowByPID, descendants]
    simp only [descendants] at hq hid
    simpa using scan_eq_firstMatch pid cs hq hid
theorem scan_eq_firstMatch (pid : Int) :
    ∀ cs : List WTree, (∀ w ∈ descendantsList cs, w.queryOk = true) →
      (∀ w ∈ descendantsList cs, w.id ≠ 0) →
      FindWindowByPID.scan cs pid = firstMatch pid (descendantsList cs)
  | [], _, _ => by simp [FindWindowByPID.scan, descendantsList, firstMatch_nil]
  | c :: rest, hq, hid => by
    simp only [descendantsList] at hq hid
    have hcq : c.queryOk = true := hq c (List.mem_cons_self _ _)
    have hdq : ∀ w ∈ descendants c, w.queryOk = true := fun w hw =>
      hq w (List.mem_cons_of_mem _ (List.mem_append_left _ hw))
    have hrq : ∀ w ∈ descendantsList rest, w.queryOk = true := fun w hw =>
      hq w (List.mem_cons_of_mem _ (List.mem_append_right _ hw))
    have hdi : ∀ w ∈ descendants c, w.id ≠ 0 := fun w hw =>
      hid w (List.mem_cons_of_mem _ (List.mem_append_left _ hw))
    have hri : ∀ w ∈ descendantsList rest, w.id ≠ 0 := fun w hw =>
      hid w (List.mem_cons_of_mem _ (List.mem_append_right _ hw))
    have h1 := FindWindowByPID_eq_firstMatch pid c hcq hdq hdi
    have h2 := scan_eq_firstMatch pid rest hrq hri
    simp only [FindWindowByPID.scan, descendantsList]
    rw [firstMatch_cons, firstMatch_append pid _ _ hdi, h1, h2]
end

/-- C9: on a finite window tree on which every `XQueryTree` succeeds (window ids
being nonzero, as X11 ids are), `FindWindowByPID` (a total function, so the
traversal terminates) returns the id of the first window, in the depth-first order
that lists a window's own children before its later siblings, among the
descendants of the root whose process-id property equals the target; it returns
`0` exactly when no descendant has that property value. -/
theorem FindWindowByPID_first_depth_first (root : WTree) (pid : Int)
    (hroot : root.queryOk = true) (hq : ∀ w ∈ descendants root, w.queryOk = true)
    (hid : ∀ w ∈ descendants root, w.id ≠ 0) :
    FindWindowByPID root pid =
        (match (descendants root).find? (fun w => decide (w.pidProp = some pid)) with
          | some w => w.id
          | none => 0) ∧
      (FindWindowByPID root pid = 0 ↔ ∀ w ∈ descendants root, w.pidProp ≠ some pid) := by
  have h := FindWindowByPID_eq_firstMatch pid root hroot hq hid
  refine ⟨?_, ?_⟩
  · rw [h]; rfl
  · rw [h]; exact firstMatch_eq_zero_iff pid _ hid

/-- Witness for C9: in `nestedWindows` the nested window `3` is found for process 7,
ahead of the later sibling `4`. -/
theorem FindWindowByPID_first_depth_first_witness :
    nestedWindows.queryOk = true ∧ (∀ w ∈ descendants nestedWindows, w.queryOk = true) ∧
      (∀ w ∈ descendants nestedWindows, w.id ≠ 0) ∧
      FindWindowByPID nestedWindows 7 = 3 ∧
      (descendants nestedWindows).map WTree.id = [2, 3, 4] := by
  have hq : ∀ w ∈ descendants nestedWindows, w.queryOk = true := by decide
  have hid : ∀ w ∈ descendants nestedWindows, w.id ≠ 0 := by decide
  have h := (FindWindowByPID_first_depth_first nestedWindows 7 rfl hq hid).1
  exact ⟨rfl, hq, hid, by rw [h]; rfl, rfl⟩

/-! ## Click-Through State Machine: the applied input region -/

theorem shapeOps_append (a b : List Effect) : shapeOps (a ++ b) = shapeOps a ++ shapeOps b := by
  simp [shapeOps]

/-- C2 at a failing input: `startIgnoreMouseEvents(100)` starts a worker that resolves
window `11` and makes it pass-through; `startIgnoreMouseEvents(200)`, issued while
the worker runs, starts nothing but overwrites `target_pid`; `stopIgnoreMouseEvents`
then resets the mask of window `22`.  Window `11` is still resolvable from its
process id, yet the last shape operation applied to it is the 1x1 rectangle. -/
theorem StopIgnoreMouseEvents_after_retarget :
    (run (State.init Int) (retargetThenStop.take 4)).monitorThreads =
        [{ tid := 1, pc := MonitorPC.loop 11 true }] ∧
      (run (State.init Int) (retargetThenStop.take 4)).running_monitor = true ∧
      twoWindowsServer.displayOk = true ∧
      FindWindowByPID twoWindowsServer.root 100 = 11 ∧
      shapeOps (run (State.init Int) retargetThenStop).trace =
        [Effect.XShapeCombineRectangles 11 { x := 3, y := 4, width := 1, height := 1 },
          Effect.XShapeCombineMask 22] ∧
      lastShapeOn 11 (run (State.init Int) retargetThenStop).trace =
        some (Effect.XShapeCombineRectangles 11 { x := 3, y := 4, width := 1, height := 1 }) ∧
      (run (State.init Int) retargetThenStop).running_monitor = false ∧
      liveMonitor (run (State.init Int) retargetThenStop) = 0 := by
  refine ⟨by decide, by decide, by decide, by decide, by decide, by decide, by decide, by decide⟩

/-- When `target_pid` still resolves to a window `win`, a `StopIgnoreMouseEvents`
issued while the running flag is set ends by resetting the mask of `win`. -/
theorem StopIgnoreMouseEvents_restores_target {F : Type} (srv : XServer) (s : State F)
    (hrun : s.running_monitor = true) (hd : srv.displayOk = true)
    (hw : FindWindowByPID srv.root s.target_pid ≠ 0) :
    lastShapeOn (FindWindowByPID srv.root s.target_pid) (StopIgnoreMouseEvents srv s).trace =
      some (Effect.XShapeCombineMask (FindWindowByPID srv.root s.target_pid)) := by
  unfold StopIgnoreMouseEvents lastShapeOn
  simp only [hrun, hd, if_true]
  rw [if_pos hw]
  simp only [List.filter_append]
  simp [List.filter, Effect.shapeWindow, List.getLast?_append]

/-- With two numbers as arguments `StartTrackingPosition` stores the first in
`cursor_data.x` and throws; nothing else changes. -/
theorem StartTrackingPosition_numbers_throw {F : Type} (x0 y0 : F) (env : InputEnv)
    (s : State F) :
    StartTrackingPosition [NapiValue.number x0, NapiValue.number y0] env s =
      ({ s with cursor_data := { s.cursor_data with x := x0 } },
        some "Expected 2 arguments: x (number), y (number)") := by
  rfl

/-- C3 at a failing input: `startTrackingPosition(100.0, 50.0)` stores `x`, then
throws (the test `!napi_get_value_double(...)` is true on success), leaves `y` at
`0`, and starts no tracker; after the two motion events `getCursorPosition` returns
`(100, 0)`, not `(103, 48)`. -/
theorem StartTrackingPosition_valid_numbers_rejected :
    (StartTrackingPosition [NapiValue.number 100, NapiValue.number 50] inputOk
        (State.init Int)).2 = some "Expected 2 arguments: x (number), y (number)" ∧
      (run (State.init Int) (trackThenMove.take 1)).running_position = false ∧
      (run (State.init Int) (trackThenMove.take 1)).positionThreads = [] ∧
      GetCursorPosition (run (State.init Int) trackThenMove) = (100, 0) := by
  refine ⟨rfl, by decide, by decide, by decide⟩

/-- C5 at failing inputs: `startIgnoreMouseEvents` with one non-number argument throws
nothing, stores the indeterminate `pid` and starts a worker;
`startTrackingPosition` with two non-number arguments throws nothing and starts the
tracker; `startTrackingPosition(1.0, <non-number>)` throws but has stored `x`. -/
theorem wrong_type_not_rejected :
    (StartIgnoreMouseEvents [NapiValue.other] 7 (State.init Int)).2 = none ∧
      (StartIgnoreMouseEvents [NapiValue.other] 7 (State.init Int)).1.running_monitor = true ∧
      (StartIgnoreMouseEvents [NapiValue.other] 7 (State.init Int)).1.target_pid = 7 ∧
      (StartIgnoreMouseEvents [NapiValue.other] 7 (State.init Int)).1.monitorThreads =
        [{ tid := 1, pc := MonitorPC.entry }] ∧
      (StartTrackingPosition [NapiValue.other, NapiValue.other] inputOk (State.init Int)).2 =
        none ∧
      (StartTrackingPosition [NapiValue.other, NapiValue.other] inputOk
        (State.init Int)).1.running_position = true ∧
      (StartTrackingPosition [NapiValue.other, NapiValue.other] inputOk
        (State.init Int)).1.positionThreads = [{ tid := 1, pc := PositionPC.loop }] ∧
      (StartTrackingPosition [NapiValue.number 1, NapiValue.other] inputOk
        (State.init Int)).2 = some "Expected 2 arguments: x (number), y (number)" ∧
      (StartTrackingPosition [NapiValue.number 1, NapiValue.other] inputOk
        (State.init Int)).1.cursor_data.x = 1 ∧
      (State.init Int).cursor_data.x = 0 := by
  refine ⟨rfl, by decide, by decide, by decide, rfl, by decide, by decide, rfl, by decide,
    by decide⟩

/-- A call with the wrong number of arguments throws and leaves the whole state
unchanged. -/
theorem wrong_count_rejected {F : Type} [DoubleOps F] (s : State F)
    (a1 a2 : List (NapiValue F)) (uninit : Nat) (env : InputEnv)
    (h1 : a1.length ≠ 1) (h2 : a2.length ≠ 2) :
    StartIgnoreMouseEvents a1 uninit s = (s, some "Expected 1 argument: pid (number)") ∧
      StartTrackingPosition a2 env s =
        (s, some "Expected 2 arguments: x (number), y (number)") := by
  constructor
  · unfold StartIgnoreMouseEvents napi_get_cb_info
    simp only [h1, ne_eq, not_false_eq_true, if_true]
  · unfold StartTrackingPosition napi_get_cb_info
    simp only [h2, ne_eq, not_false_eq_true, if_true]

/-! ## Worker lifecycle -/

theorem stepMonitorThread_last (f : MonitorPC → MonitorPC × List Effect) (tid : Nat)
    (pc : MonitorPC) (pre : List MonitorThread) (hpre : ∀ th ∈ pre, th.tid ≠ tid) :
    stepMonitorThread f tid (pre ++ [{ tid := tid, pc := pc }]) =
      (pre ++ [{ tid := tid, pc := (f pc).1 }], (f pc).2) := by
  induction pre with
  | nil => simp [stepMonitorThread]
  | cons th rest ih =>
    have h1 : th.tid ≠ tid := hpre th (List.mem_cons_self _ _)
    have h2 : ∀ u ∈ rest, u.tid ≠ tid := fun u hu => hpre u (List.mem_cons_of_mem _ hu)
    rw [List.cons_append]
    simp only [stepMonitorThread, h1, if_false]
    rw [ih h2]
    simp

theorem stepMonitorThread_tids (f : MonitorPC → MonitorPC × List Effect) (tid : Nat)
    (l : List MonitorThread) :
    (stepMonitorThread f tid l).1.map MonitorThread.tid = l.map MonitorThread.tid := by
  induction l with
  | nil => simp [stepMonitorThread]
  | cons th rest ih =>
    simp only [stepMonitorThread]
    split
    · simp
    · simp [ih]

theorem stepMonitorThread_mem (f : MonitorPC → MonitorPC × List Effect) (tid : Nat)
    (l : List MonitorThread) :
    ∀ u ∈ (stepMonitorThread f tid l).1,
      u ∈ l ∨ ∃ th ∈ l, th.tid = tid ∧ u.tid = tid ∧ u.pc = (f th.pc).1 := by
  induction l with
  | nil => intro u hu; simp [stepMonitorThread] at hu
  | cons th rest ih =>
    intro u hu
    simp only [stepMonitorThread] at hu
    split at hu
    · rename_i h
      rcases List.mem_cons.mp hu with rfl | hr
      · exact Or.inr ⟨th, List.mem_cons_self _ _, h, h, rfl⟩
      · exact Or.inl (List.mem_cons_of_mem _ hr)
    · rcases List.mem_cons.mp hu with rfl | hr
      · exact Or.inl (List.mem_cons_self _ _)
      · rcases ih u hr with h | ⟨v, hv, h1, h2, h3⟩
        · exact Or.inl (List.mem_cons_of_mem _ h)
        · exact Or.inr ⟨v, List.mem_cons_of_mem _ hv, h1, h2, h3⟩

theorem stepMonitorThread_target (f : MonitorPC → MonitorPC × List Effect) (tid : Nat)
    (l : List MonitorThread) (hnd : (l.map MonitorThread.tid).Nodup) :
    ∀ u ∈ (stepMonitorThread f tid l).1, u.tid = tid → ∃ pc, u.pc = (f pc).1 := by
  induction l with
  | nil => intro u hu; simp [stepMonitorThread] at hu
  | cons th rest ih =>
    intro u hu htid
    rw [List.map_cons, List.nodup_cons] at hnd
    simp only [stepMonitorThread] at hu
    split at hu
    · rename_i h
      rcases List.mem_cons.mp hu with rfl | hr
      · exact ⟨th.pc, rfl⟩
      · exact absurd (List.mem_map.mpr ⟨u, hr, htid.trans h.symm⟩) hnd.1
    · rename_i h
      rcases List.mem_cons.mp hu with rfl | hr
      · exact absurd htid h
      · exact ih hnd.2 u hr htid

theorem stepPositionThread_length {F : Type} (f : PositionPC → PositionPC × CursorData F)
    (tid : Nat) (cd : CursorData F) (l : List PositionThread) :
    (stepPositionThread f tid cd l).1.length = l.length := by
  induction l with
  | nil => simp [stepPositionThread]
  | cons th rest ih =>
    simp only [stepPositionThread]
    split
    · simp
    · simp [ih]

theorem MonitorMouse_step_returned (r : Bool) (p : Int) (srv : XServer) (t : Tick)
    (pc : MonitorPC) (h : (MonitorMouse.step r p srv t pc).1 ≠ MonitorPC.returned) :
    pc ≠ MonitorPC.returned := by
  intro hpc
  subst hpc
  exact h rfl

theorem MonitorMouse_finish_returned (srv : XServer) (p : Int) (pc : MonitorPC) :
    (MonitorMouse.finish srv p pc).1 = MonitorPC.returned := by
  cases pc with
  | entry =>
    simp only [MonitorMouse.finish]
    split <;> rfl
  | loop w l => rfl
  | returned => rfl

theorem threadsOk_init (F : Type) [DoubleOps F] : (State.init F).threadsOk := by
  simp [State.threadsOk, State.init]

theorem threadsOk_StartIgnoreMouseEvents {F : Type} [DoubleOps F] (s : State F)
    (actual : List (NapiValue F)) (uninit : Nat) (h : s.threadsOk) :
    (StartIgnoreMouseEvents actual uninit s).1.threadsOk := by
  obtain ⟨h1, h2, h3, h4, h5⟩ := h
  unfold StartIgnoreMouseEvents
  simp only
  split
  · exact ⟨h1, h2, h3, h4, h5⟩
  · split
    · rename_i hrun
      refine ⟨?_, ?_, ?_, h4, h5⟩
      · intro th hth
        simp only [List.mem_append, List.mem_singleton] at hth
        rcases hth with hth | rfl
        · exact Nat.lt_succ_of_lt (h1 th hth)
        · exact Nat.lt_succ_self _
      · simp only [List.map_append, List.map_cons, List.map_nil]
        refine List.Nodup.append h2 (List.nodup_singleton _) ?_
        intro a ha hb
        simp only [List.mem_singleton] at hb
        obtain ⟨th, hth, rfl⟩ := List.mem_map.mp ha
        exact absurd hb (Nat.ne_of_lt (h1 th hth))
      · intro th hth hlive
        simp only [List.mem_append, List.mem_singleton] at hth
        rcases hth with hth | rfl
        · have := (h3 th hth hlive).2
          rw [hrun] at this
          exact absurd this (by decide)
        · exact ⟨rfl, rfl⟩
    · exact ⟨h1, h2, h3, h4, h5⟩

theorem StopIgnoreMouseEvents_threads {F : Type} (srv : XServer) (s : State F) :
    (StopIgnoreMouseEvents srv s).nextTid = s.nextTid ∧
      (StopIgnoreMouseEvents srv s).monitor_thread = s.monitor_thread ∧
      (StopIgnoreMouseEvents srv s).positionThreads = s.positionThreads ∧
      (StopIgnoreMouseEvents srv s).running_position = s.running_position ∧
      (StopIgnoreMouseEvents srv s).monitorThreads =
        (if s.running_monitor then
          (stepMonitorThread (MonitorMouse.finish srv s.target_pid) s.monitor_thread
            s.monitorThreads).1
        else s.monitorThreads) ∧
      (StopIgnoreMouseEvents srv s).running_monitor = false := by
  unfold StopIgnoreMouseEvents
  cases hr : s.running_monitor with
  | false => simp [hr]
  | true =>
    simp only [if_true]
    split
    · split <;> simp
    · simp

theorem threadsOk_StopIgnoreMouseEvents {F : Type} (srv : XServer) (s : State F)
    (h : s.threadsOk) : (StopIgnoreMouseEvents srv s).threadsOk := by
  obtain ⟨h1, h2, h3, h4, h5⟩ := h
  obtain ⟨e1, e2, e3, e4, e5, e6⟩ := StopIgnoreMouseEvents_threads srv s
  unfold State.threadsOk
  rw [e1, e2, e3, e4, e5, e6]
  cases hr : s.running_monitor with
  | false =>
    simp only [Bool.false_eq_true, if_false]
    refine ⟨h1, h2, ?_, h4, h5⟩
    intro th hth hlive
    have := (h3 th hth hlive).2
    rw [hr] at this
    exact absurd this (by decide)
  | true =>
    simp only [if_true]
    refine ⟨?_, ?_, ?_, h4, h5⟩
    · intro u hu
      rcases stepMonitorThread_mem _ _ _ u hu with hm | ⟨th, hth, ht, hut, _⟩
      · exact h1 u hm
      · rw [hut, ← ht]; exact h1 th hth
    · rw [stepMonitorThread_tids]; exact h2
    · intro u hu hlive
      exfalso
      have htid : u.tid = s.monitor_thread := by
        rcases stepMonitorThread_mem _ _ _ u hu with hm | ⟨th, _, _, hut, _⟩
        · exact (h3 u hm hlive).1
        · exact hut
      obtain ⟨pc, hpc⟩ := stepMonitorThread_target _ _ _ h2 u hu htid
      rw [hpc, MonitorMouse_finish_returned] at hlive
      exact hlive rfl

theorem StartTrackingPosition_threads {F : Type} (actual : List (NapiValue F)) (env : InputEnv)
    (s : State F) :
    (StartTrackingPosition actual env s).1.monitorThreads = s.monitorThreads ∧
      (StartTrackingPosition actual env s).1.monitor_thread = s.monitor_thread ∧
      (StartTrackingPosition actual env s).1.running_monitor = s.running_monitor ∧
      s.nextTid ≤ (StartTrackingPosition actual env s).1.nextTid ∧
      ((StartTrackingPosition actual env s).1.positionThreads = s.positionThreads ∧
          (StartTrackingPosition actual env s).1.running_position = s.running_position ∧
          (StartTrackingPosition actual env s).1.position_thread = s.position_thread ∧
          (StartTrackingPosition actual env s).1.nextTid = s.nextTid ∨
        s.running_position = false ∧
          (StartTrackingPosition actual env s).1.running_position = true ∧
          (StartTrackingPosition actual env s).1.positionThreads =
            s.positionThreads ++ [{ tid := s.nextTid, pc := PositionPC.loop }]) := by
  unfold StartTrackingPosition
  simp only
  split
  · simp
  · split
    · simp
    · split
      · simp
      · split
        · rename_i hi
          split
          · rename_i hc
            refine ⟨rfl, rfl, rfl, Nat.le_succ _, Or.inr ⟨hc.1, rfl, rfl⟩⟩
          · simp
        · rename_i hi
          split
          · rename_i hc
            refine ⟨rfl, rfl, rfl, Nat.le_succ _, Or.inr ⟨hc.1, rfl, rfl⟩⟩
          · simp

theorem threadsOk_StartTrackingPosition {F : Type} (actual : List (NapiValue F))
    (env : InputEnv) (s : State F) (h : s.threadsOk) :
    (StartTrackingPosition actual env s).1.threadsOk := by
  obtain ⟨h1, h2, h3, h4, h5⟩ := h
  obtain ⟨e1, e2, e3, e4, e5⟩ := StartTrackingPosition_threads actual env s
  unfold State.threadsOk
  rw [e1, e2, e3]
  refine ⟨fun th hth => Nat.lt_of_lt_of_le (h1 th hth) e4, h2, h3, ?_⟩
  rcases e5 with ⟨p1, p2, _, _⟩ | ⟨q1, q2, q3⟩
  · rw [p1, p2]; exact ⟨h4, h5⟩
  · rw [q3, q2, h5 q1]
    exact ⟨by simp, fun hc => absurd hc (by decide)⟩

theorem threadsOk_step {F : Type} [DoubleOps F] (s : State F) (e : Event F)
    (h : s.threadsOk) : (step s e).threadsOk := by
  cases e with
  | startIgnoreMouseEvents actual uninit => exact threadsOk_StartIgnoreMouseEvents s actual uninit h
  | stopIgnoreMouseEvents srv => exact threadsOk_StopIgnoreMouseEvents srv s h
  | startTrackingPosition actual env => exact threadsOk_StartTrackingPosition actual env s h
  | getCursorPosition => exact h
  | monitorStep tid srv t =>
    obtain ⟨h1, h2, h3, h4, h5⟩ := h
    refine ⟨?_, ?_, ?_, h4, h5⟩
    · intro u hu
      rcases stepMonitorThread_mem _ _ _ u hu with hm | ⟨th, hth, ht, hut, _⟩
      · exact h1 u hm
      · rw [hut, ← ht]; exact h1 th hth
    · simp only [step]
      rw [stepMonitorThread_tids]; exact h2
    · intro u hu hlive
      rcases stepMonitorThread_mem _ _ _ u hu with hm | ⟨th, hth, ht, hut, hpc⟩
      · exact h3 u hm hlive
      · rw [hpc] at hlive
        have := h3 th hth (MonitorMouse_step_returned _ _ _ _ _ hlive)
        exact ⟨by rw [hut, ← ht]; exact this.1, this.2⟩
  | positionStep tid pending =>
    obtain ⟨h1, h2, h3, h4, h5⟩ := h
    refine ⟨h1, h2, h3, ?_, ?_⟩
    · simp only [step]
      rw [stepPositionThread_length]; exact h4
    · intro hr
      have := h5 hr
      simp only [step]
      rw [this]
      rfl

theorem threadsOk_run {F : Type} [DoubleOps F] (evs : List (Event F)) :
    ∀ s : State F, s.threadsOk → (run s evs).threadsOk := by
  induction evs with
  | nil => intro s h; exact h
  | cons e rest ih =>
    intro s h
    exact ih (step s e) (threadsOk_step s e h)

theorem length_le_one_of_same_tid (l : List MonitorThread) (c : Nat)
    (hnd : (l.map MonitorThread.tid).Nodup) (hc : ∀ th ∈ l, th.tid = c) : l.length ≤ 1 := by
  match l, hnd, hc with
  | [], _, _ => simp
  | [_], _, _ => simp
  | a :: b :: rest, hnd, hc =>
    exfalso
    have ha : a.tid = c := hc a (List.mem_cons_self _ _)
    have hb : b.tid = c := hc b (List.mem_cons_of_mem _ (List.mem_cons_self _ _))
    simp only [List.map_cons, List.nodup_cons, List.mem_cons, not_or] at hnd
    exact hnd.1.1 (ha.trans hb.symm)

theorem live_le_one {F : Type} (s : State F) (h : s.threadsOk) :
    liveMonitor s ≤ 1 ∧ livePosition s ≤ 1 := by
  obtain ⟨_, h2, h3, h4, _⟩ := h
  constructor
  · unfold liveMonitor
    apply length_le_one_of_same_tid _ s.monitor_thread
    · exact List.Nodup.sublist (List.Sublist.map _ (List.filter_sublist _)) h2
    · intro th hth
      rw [List.mem_filter] at hth
      exact (h3 th hth.1 (of_decide_eq_true hth.2)).1
  · unfold livePosition
    exact Nat.le_trans (List.length_filter_le _ _) h4

theorem start_while_running_is_noop_aux {F : Type} [DoubleOps F]
    (actual : List (NapiValue F)) (uninit : Nat) (s : State F) (hrun : s.running_monitor = true) :
    (StartIgnoreMouseEvents actual uninit s).1.running_monitor = s.running_monitor ∧
      (StartIgnoreMouseEvents actual uninit s).1.monitor_thread = s.monitor_thread ∧
      (StartIgnoreMouseEvents actual uninit s).1.monitorThreads = s.monitorThreads ∧
      (StartIgnoreMouseEvents actual uninit s).1.positionThreads = s.positionThreads ∧
      (StartIgnoreMouseEvents actual uninit s).1.nextTid = s.nextTid := by
  unfold StartIgnoreMouseEvents
  simp only
  split
  · exact ⟨rfl, rfl, rfl, rfl, rfl⟩
  · split
    · rename_i hc
      rw [hrun] at hc
      exact absurd hc (by decide)
    · exact ⟨rfl, rfl, rfl, rfl, rfl⟩

/-- C4: a start request issued while the worker's running flag is set leaves the
flag, the recorded thread id and the set of threads unchanged (no thread is
created); and after every sequence of boundary calls and thread steps from the
initial state, at most one monitor thread and at most one position thread have
not returned. -/
theorem start_while_running_is_noop {F : Type} [DoubleOps F] (s : State F)
    (actual : List (NapiValue F)) (uninit : Nat) (env : InputEnv) (evs : List (Event F)) :
    (s.running_monitor = true →
        (StartIgnoreMouseEvents actual uninit s).1.running_monitor = s.running_monitor ∧
          (StartIgnoreMouseEvents actual uninit s).1.monitor_thread = s.monitor_thread ∧
          (StartIgnoreMouseEvents actual uninit s).1.monitorThreads = s.monitorThreads ∧
          (StartIgnoreMouseEvents actual uninit s).1.positionThreads = s.positionThreads ∧
          (StartIgnoreMouseEvents actual uninit s).1.nextTid = s.nextTid) ∧
      (s.running_position = true →
        (StartTrackingPosition actual env s).1.running_position = s.running_position ∧
          (StartTrackingPosition actual env s).1.position_thread = s.position_thread ∧
          (StartTrackingPosition actual env s).1.positionThreads = s.positionThreads ∧
          (StartTrackingPosition actual env s).1.monitorThreads = s.monitorThreads ∧
          (StartTrackingPosition actual env s).1.nextTid = s.nextTid) ∧
      liveMonitor (run (State.init F) evs) ≤ 1 ∧ livePosition (run (State.init F) evs) ≤ 1 := by
  refine ⟨?_, ?_, live_le_one _ (threadsOk_run evs _ (threadsOk_init F))⟩
  · exact start_while_running_is_noop_aux actual uninit s
  · intro hrun
    obtain ⟨e1, _, _, _, e5⟩ := StartTrackingPosition_threads actual env s
    rcases e5 with ⟨p1, p2, p3, p4⟩ | ⟨q1, _, _⟩
    · exact ⟨p2, p3, p1, e1, p4⟩
    · rw [hrun] at q1
      exact absurd q1 (by decide)

/-- Witness for C4: with both workers started, `startIgnoreMouseEvents(200)` and
`startTrackingPosition(1.0, 2.0)` create no thread. -/
theorem start_while_running_is_noop_witness :
    (run (State.init Int) bothStarted).running_monitor = true ∧
      (run (State.init Int) bothStarted).running_position = true ∧
      (StartIgnoreMouseEvents [NapiValue.number 200] 0
          (run (State.init Int) bothStarted)).1.monitorThreads =
        (run (State.init Int) bothStarted).monitorThreads ∧
      (StartTrackingPosition [NapiValue.number 200] inputOk
          (run (State.init Int) bothStarted)).1.positionThreads =
        (run (State.init Int) bothStarted).positionThreads ∧
      liveMonitor (run (State.init Int) bothStarted) ≤ 1 ∧
      livePosition (run (State.init Int) bothStarted) ≤ 1 :=
  ⟨by decide, by decide,
    ((start_while_running_is_noop (run (State.init Int) bothStarted) [NapiValue.number 200] 0
      inputOk bothStarted).1 (by decide)).2.2.1,
    ((start_while_running_is_noop (run (State.init Int) bothStarted) [NapiValue.number 200] 0
      inputOk bothStarted).2.1 (by decide)).2.2.1,
    (start_while_running_is_noop (run (State.init Int) bothStarted) [NapiValue.number 200] 0
      inputOk bothStarted).2.2.1,
    (start_while_running_is_noop (run (State.init Int) bothStarted) [NapiValue.number 200] 0
      inputOk bothStarted).2.2.2⟩

/-- C7, as the spec states it, fails: after `startIgnoreMouseEvents(42)` with no
window of process 42, the worker returns without a shape update, the running flag
is still true, and a second `startIgnoreMouseEvents(42)` creates no thread. -/
theorem failed_resolution_leaves_running :
    FindWindowByPID twoWindowsServer.root 42 = 0 ∧
      (run (State.init Int) startUnresolvable).monitorThreads =
        [{ tid := 1, pc := MonitorPC.returned }] ∧
      shapeOps (run (State.init Int) startUnresolvable).trace = [] ∧
      (run (State.init Int) startUnresolvable).running_monitor = true ∧
      (StartIgnoreMouseEvents [NapiValue.number 42] 0
          (run (State.init Int) startUnresolvable)).1.monitorThreads =
        [{ tid := 1, pc := MonitorPC.returned }] := by
  refine ⟨by decide, by decide, by decide, by decide, by decide⟩

/-- C7 (amended): when a monitor worker fails to resolve its window (display
unreachable, or no window carries the target process id), it returns without a
shape update and the running flag stays true; a following `startIgnoreMouseEvents`
creates no thread; after an intervening `stopIgnoreMouseEvents`, a
`startIgnoreMouseEvents` with one argument sets the flag and creates a new thread,
whose first step opens the display and resolves the window again. -/
theorem failed_resolution_retry_needs_stop {F : Type} [DoubleOps F] (s : State F)
    (pre : List MonitorThread) (tid : Nat) (srv srv2 : XServer) (t : Tick)
    (actual : List (NapiValue F)) (uninit : Nat)
    (hrun : s.running_monitor = true)
    (hth : s.monitorThreads = pre ++ [{ tid := tid, pc := MonitorPC.entry }])
    (hpre : ∀ th ∈ pre, th.tid ≠ tid)
    (hfail : srv.displayOk = false ∨ FindWindowByPID srv.root s.target_pid = 0)
    (hargs : actual.length = 1) :
    (step s (Event.monitorStep tid srv t)).monitorThreads =
        pre ++ [{ tid := tid, pc := MonitorPC.returned }] ∧
      shapeOps (step s (Event.monitorStep tid srv t)).trace = shapeOps s.trace ∧
      (step s (Event.monitorStep tid srv t)).running_monitor = true ∧
      (StartIgnoreMouseEvents actual uninit
          (step s (Event.monitorStep tid srv t))).1.monitorThreads =
        (step s (Event.monitorStep tid srv t)).monitorThreads ∧
      (StopIgnoreMouseEvents srv2 (step s (Event.monitorStep tid srv t))).running_monitor =
        false ∧
      (StartIgnoreMouseEvents actual uninit
          (StopIgnoreMouseEvents srv2 (step s (Event.monitorStep tid srv t)))).1.running_monitor =
        true ∧
      (StartIgnoreMouseEvents actual uninit
          (StopIgnoreMouseEvents srv2 (step s (Event.monitorStep tid srv t)))).1.monitorThreads =
        (StopIgnoreMouseEvents srv2 (step s (Event.monitorStep tid srv t))).monitorThreads ++
          [{ tid := (StopIgnoreMouseEvents srv2 (step s (Event.monitorStep tid srv t))).nextTid,
             pc := MonitorPC.entry }] ∧
      (∀ (r : Bool) (p : Int) (srv3 : XServer) (t3 : Tick),
        MonitorMouse.step r p srv3 t3 MonitorPC.entry = MonitorMouse.entry srv3 p) := by
  have hentry : (MonitorMouse.entry srv s.target_pid).1 = MonitorPC.returned ∧
      shapeOps (MonitorMouse.entry srv s.target_pid).2 = [] := by
    unfold MonitorMouse.entry
    rcases hfail with hd | hw
    · simp [hd, shapeOps, Effect.isShapeUpdate]
    · cases hd : srv.displayOk with
      | false => simp [shapeOps, Effect.isShapeUpdate]
      | true => simp [hw, shapeOps, Effect.isShapeUpdate]
  have hstep : (step s (Event.monitorStep tid srv t)) =
      { s with
        monitorThreads := pre ++ [{ tid := tid, pc := (MonitorMouse.entry srv s.target_pid).1 }]
        trace := s.trace ++ (MonitorMouse.entry srv s.target_pid).2 } := by
    simp only [step]
    rw [hth, stepMonitorThread_last _ _ _ _ hpre]
    rfl
  have hstop := StopIgnoreMouseEvents_threads srv2 (step s (Event.monitorStep tid srv t))
  have hstart : ∀ u : State F, u.running_monitor = false →
      (StartIgnoreMouseEvents actual uninit u).1.running_monitor = true ∧
        (StartIgnoreMouseEvents actual uninit u).1.monitorThreads =
          u.monitorThreads ++ [{ tid := u.nextTid, pc := MonitorPC.entry }] := by
    intro u hu
    unfold StartIgnoreMouseEvents napi_get_cb_info
    simp only [hargs, ne_eq, not_true_eq_false, if_false, hu, if_true]
    simp
  refine ⟨?_, ?_, ?_, ?_, hstop.2.2.2.2.2, (hstart _ hstop.2.2.2.2.2).1,
    (hstart _ hstop.2.2.2.2.2).2, fun _ _ _ _ => rfl⟩
  · rw [hstep, hentry.1]
  · rw [hstep]
    simp only
    rw [shapeOps_append, hentry.2, List.append_nil]
  · rw [hstep]; exact hrun
  · exact ((start_while_running_is_noop_aux actual uninit _ (by rw [hstep]; exact hrun))).2.2.1

/-- Witness for C7 (amended): `startIgnoreMouseEvents(42)` with no window of
process 42. -/
theorem failed_resolution_retry_needs_stop_witness :
    (run (State.init Int) (startUnresolvable.take 1)).running_monitor = true ∧
      (step (run (State.init Int) (startUnresolvable.take 1))
        (Event.monitorStep 1 twoWindowsServer transparentTick)).monitorThreads =
        [] ++ [{ tid := 1, pc := MonitorPC.returned }] ∧
      (step (run (State.init Int) (startUnresolvable.take 1))
        (Event.monitorStep 1 twoWindowsServer transparentTick)).running_monitor = true :=
  ⟨by decide,
    (failed_resolution_retry_needs_stop (run (State.init Int) (startUnresolvable.take 1)) [] 1
      twoWindowsServer twoWindowsServer transparentTick [NapiValue.number 42] 0 (by decide)
      (by decide) (by simp) (Or.inr (by decide)) rfl).1,
    (failed_resolution_retry_needs_stop (run (State.init Int) (startUnresolvable.take 1)) [] 1
      twoWindowsServer twoWindowsServer transparentTick [NapiValue.number 42] 0 (by decide)
      (by decide) (by simp) (Or.inr (by decide)) rfl).2.2.1⟩

end IgnoreMouse
